import Mathlib

/-!
Shallow embedding of the `client` package media and merchant-order
operations (`client_media.go`, `client_merchant_order.go`) of the
wechat API client SDK, together with theorems settling the spec claims.

External collaborators (token provider, HTTP transport, JSON codec,
buffer pool) are modelled as explicit "world" records that record the
outcome each collaborator would produce; every operation returns its
result paired with the trace of observable events it performed, so
statements such as "no network call is made" become statements about
the trace.
-/

namespace Wechat

/-- A minimal JSON value model, sufficient for the wire shapes the
client encodes and decodes. -/
inductive Json where
  | null : Json
  | str : String → Json
  | num : Int → Json
  | obj : List (String × Json) → Json
  | arr : List Json → Json

/-- Look up a top-level field of a JSON object (first occurrence). -/
def Json.getField : Json → String → Option Json
  | .obj fs, k => (fs.find? (fun p => p.1 == k)).map Prod.snd
  | _, _ => none

/-- Whether a JSON value is an object carrying the given top-level key. -/
def Json.hasKey (j : Json) (k : String) : Bool :=
  match j with
  | .obj fs => fs.any (fun p => p.1 == k)
  | _ => false

/-- The string content of a top-level field, with the Go zero value ""
when the field is absent or JSON null. -/
def Json.strField (j : Json) (k : String) : String :=
  match j.getField k with
  | some (.str s) => s
  | _ => ""

/-- Modelled from the spec: `client.Error` (the ApiError entity,
defined in the client package outside the provided sources) carries the
remote error envelope; its wire names are `errcode` / `errmsg` as shown
in the spec examples. -/
structure Error where
  errCode : Int
  errMsg : String
deriving Repr, DecidableEq

/-- Modelled from the spec: `media.UploadResponse` (media package,
outside the provided sources) with wire names `type`, `media_id`,
`created_at`. -/
structure UploadResponse where
  mediaType : String
  mediaId : String
  createdAt : Int
deriving Repr, DecidableEq

/-- Modelled from the spec: the four `media.MEDIA_TYPE_*` constants of
the media package, the enumeration {image, voice, video, thumb}. -/
def MEDIA_TYPE_IMAGE : String := "image"

/-- See `MEDIA_TYPE_IMAGE`. -/
def MEDIA_TYPE_VOICE : String := "voice"

/-- See `MEDIA_TYPE_IMAGE`. -/
def MEDIA_TYPE_VIDEO : String := "video"

/-- See `MEDIA_TYPE_IMAGE`. -/
def MEDIA_TYPE_THUMB : String := "thumb"

/-- Modelled from the spec: `order.Order` is a remote-defined record
(merchant/order package, outside the provided sources) passed through
opaquely; it is modelled as its decoded JSON object. -/
structure Order where
  json : Json

/-- Modelled from the spec: `media.News`, an opaque payload structure
JSON-encoded and passed through as-is; modelled as its JSON encoding. -/
structure News where
  json : Json

/-- Modelled from the spec: `media.Video`, an opaque payload structure
JSON-encoded and passed through as-is; modelled as its JSON encoding. -/
structure Video where
  json : Json

/-- An error returned by an operation: either a plain message
(`errors.New` / `fmt.Errorf` / transport / decode errors) or the
remote error envelope `*client.Error`. -/
inductive ClientErr where
  | msg : String → ClientErr
  | api : Error → ClientErr
deriving Repr, DecidableEq

/-- Observable side effects an operation can perform, in order. -/
inductive Event where
  | tokenFetch : Event
  | bufferGet : Event
  | bufferPut : Event
  | httpUpload : Event
  | httpPostJSON : Json → Event
  | httpGet : Event
  | jsonDecode : Event
  | sinkWrite : List Nat → Event

/-- Whether an event is a network call (token fetch excluded). -/
def Event.isNetwork : Event → Bool
  | .httpUpload => true
  | .httpPostJSON _ => true
  | .httpGet => true
  | _ => false

/-- Whether an event is a token fetch. -/
def Event.isTokenFetch : Event → Bool
  | .tokenFetch => true
  | _ => false

/-- Whether an event checks a buffer out of the pool. -/
def Event.isBufferGet : Event → Bool
  | .bufferGet => true
  | _ => false

/-- Whether an event returns a buffer to the pool. -/
def Event.isBufferPut : Event → Bool
  | .bufferPut => true
  | _ => false

/-- Whether an event is a JSON decode of a response body. -/
def Event.isJsonDecode : Event → Bool
  | .jsonDecode => true
  | _ => false

/-- Whether an event writes bytes to the caller-provided sink. -/
def Event.isSinkWrite : Event → Bool
  | .sinkWrite _ => true
  | _ => false

/-- The body posted by a JSON POST event, if any. -/
def Event.postedBody : Event → Option Json
  | .httpPostJSON b => some b
  | _ => none

/-- An HTTP response as seen by the JSON-consuming operations:
status code, status line, and the response body already read as JSON
(decode failure of the raw bytes is modelled by `Except` in the
decode step driven by the body value). -/
structure HttpResponse where
  statusCode : Nat
  status : String
  body : Json

/-- Decode a top-level string field of an object, Go style: absent or
null leaves the zero value "", a present non-string is a decode error. -/
def decodeStrField (j : Json) (k : String) : Except String String :=
  match j.getField k with
  | none => .ok ""
  | some .null => .ok ""
  | some (.str s) => .ok s
  | some _ => .error ("json: cannot unmarshal value into field " ++ k)

/-- Decode a top-level integer field of an object, Go style: absent or
null leaves the zero value 0, a present non-number is a decode error. -/
def decodeIntField (j : Json) (k : String) : Except String Int :=
  match j.getField k with
  | none => .ok 0
  | some .null => .ok 0
  | some (.num n) => .ok n
  | some _ => .error ("json: cannot unmarshal value into field " ++ k)

/-- Decode the error envelope `client.Error` from a JSON body. -/
def decodeError (j : Json) : Except String Error :=
  match j with
  | .obj _ => do
    let code ← decodeIntField j "errcode"
    let msg ← decodeStrField j "errmsg"
    .ok ⟨code, msg⟩
  | .null => .ok ⟨0, ""⟩
  | _ => .error "json: cannot unmarshal value into struct"

/-- Decode the anonymous thumb-branch result of `MediaUpload`:
`type`, `thumb_media_id`, `created_at` plus the embedded error
envelope (`client_media.go`, thumb case). The identifier comes from
the wire field `thumb_media_id`. -/
def decodeThumbUploadResult (j : Json) : Except String (UploadResponse × Error) :=
  match j with
  | .obj _ => do
    let t ← decodeStrField j "type"
    let mid ← decodeStrField j "thumb_media_id"
    let ca ← decodeIntField j "created_at"
    let e ← decodeError j
    .ok (⟨t, mid, ca⟩, e)
  | .null => .ok (⟨"", "", 0⟩, ⟨0, ""⟩)
  | _ => .error "json: cannot unmarshal value into struct"

/-- Decode the default-branch result of `MediaUpload` (and of
`MediaUploadNews` / `MediaUploadVideo`): an embedded
`media.UploadResponse` (`type`, `media_id`, `created_at`) plus the
embedded error envelope. -/
def decodeDefaultUploadResult (j : Json) : Except String (UploadResponse × Error) :=
  match j with
  | .obj _ => do
    let t ← decodeStrField j "type"
    let mid ← decodeStrField j "media_id"
    let ca ← decodeIntField j "created_at"
    let e ← decodeError j
    .ok (⟨t, mid, ca⟩, e)
  | .null => .ok (⟨"", "", 0⟩, ⟨0, ""⟩)
  | _ => .error "json: cannot unmarshal value into struct"

/-- Decode an `order.Order` value: an object (passed through as-is);
absent handling is done by the callers. -/
def decodeOrder (j : Json) : Except String Order :=
  match j with
  | .obj fs => .ok ⟨.obj fs⟩
  | .null => .ok ⟨.obj []⟩
  | _ => .error "json: cannot unmarshal value into struct order.Order"

/-- Decode the `MerchantOrderGetById` result: error envelope plus a
single order under the key `order`. -/
def decodeOrderGetByIdResult (j : Json) : Except String (Order × Error) :=
  match j with
  | .obj _ => do
    let e ← decodeError j
    let ord ← match j.getField "order" with
      | none => Except.ok (⟨Json.obj []⟩ : Order)
      | some v => decodeOrder v
    .ok (ord, e)
  | .null => .ok (⟨.obj []⟩, ⟨0, ""⟩)
  | _ => .error "json: cannot unmarshal value into struct"

/-- Decode the `MerchantOrderGetByFilter` result: error envelope plus
an ordered sequence of orders under the key `order_list`. -/
def decodeOrderListResult (j : Json) : Except String (List Order × Error) :=
  match j with
  | .obj _ => do
    let e ← decodeError j
    let lst ← match j.getField "order_list" with
      | none => Except.ok ([] : List Order)
      | some .null => Except.ok ([] : List Order)
      | some (.arr elems) => elems.mapM decodeOrder
      | some _ => Except.error "json: cannot unmarshal value into field order_list"
    .ok (lst, e)
  | .null => .ok ([], ⟨0, ""⟩)
  | _ => .error "json: cannot unmarshal value into struct"

/-- The collaborator outcomes `MediaUpload` can observe: the token
fetch, the multipart encoding steps (`CreateFormFile` and
`bodyWriter.Close`, whose errors the code checks), and the POST. -/
structure UploadWorld where
  tokenResult : Except String String
  createFormFileResult : Except String Unit
  closeResult : Except String Unit
  postResult : Except String HttpResponse

/-- The collaborator outcomes of the JSON-POSTing operations
(`MediaUploadNews`, `MediaUploadVideo`, the four merchant order
operations): the token fetch and the POST. -/
structure JsonOpWorld where
  tokenResult : Except String String
  postResult : Except String HttpResponse

/-- An HTTP GET response as seen by `MediaDownload`: status, the
declared Content-Type header, the raw body bytes, and the outcome of
reading the same body stream as JSON (the encoding/json collaborator
applied to the stream). -/
structure DownloadResponse where
  statusCode : Nat
  status : String
  contentTypeHeader : String
  body : List Nat
  bodyJson : Except String Json

/-- The collaborator outcomes `MediaDownload` can observe. -/
structure DownloadWorld where
  tokenResult : Except String String
  getResult : Except String DownloadResponse

/-- ASCII lowercasing of one character, as Go lowercases media types. -/
def lowerChar (c : Char) : Char :=
  if 65 ≤ c.toNat ∧ c.toNat ≤ 90 then Char.ofNat (c.toNat + 32) else c

/-- The characters before the first `;`, where media-type parameters
begin. -/
def takeUntilSemi : List Char → List Char
  | [] => []
  | c :: cs => if c = ';' then [] else c :: takeUntilSemi cs

/-- Go `mime.ParseMediaType` restricted to what `MediaDownload` uses
of it: the media type before any parameters, surrounding spaces
stripped, lowercased. -/
def parseMediaType (v : String) : String :=
  String.mk ((((takeUntilSemi v.data).dropWhile (fun c => c = ' ')).reverse.dropWhile
    (fun c => c = ' ')).reverse.map lowerChar)

/-- Modelled from the spec: the generic "POST JSON, decode JSON"
helper `c.postJSON` is an external collaborator not under the provided
sources. Per the spec it issues the POST, requires HTTP 200 (yielding
a status-derived error before any JSON decoding otherwise), then
JSON-decodes the body into the destination. -/
def postJSON {α : Type} (post : Except String HttpResponse) (request : Json)
    (decode : Json → Except String α) : Except String α × List Event :=
  match post with
  | .error e => (.error e, [.httpPostJSON request])
  | .ok resp =>
    if resp.statusCode ≠ 200 then
      (.error ("http.Status: " ++ resp.status), [.httpPostJSON request])
    else
      match decode resp.body with
      | .error e => (.error e, [.httpPostJSON request, .jsonDecode])
      | .ok a => (.ok a, [.httpPostJSON request, .jsonDecode])

/-- `Client.MediaUpload` (`client_media.go`): validate the media type
against the four-value enumeration, require a non-empty filename and a
non-nil reader, fetch a token, draw a buffer from the pool (returned on
every exit path thereafter, per the deferred put), multipart-encode the
file, POST it, require HTTP 200, then decode the thumb-specific or
default result shape and translate a non-zero error code into an
`Error`. The reader is `none` for nil, otherwise the outcome of
`io.Copy` from it. -/
def MediaUpload (c : UploadWorld) (mediaType filename : String)
    (mediaReader : Option (Except String Unit)) :
    Except ClientErr UploadResponse × List Event :=
  if ¬ (mediaType = MEDIA_TYPE_IMAGE ∨ mediaType = MEDIA_TYPE_VOICE ∨
        mediaType = MEDIA_TYPE_VIDEO ∨ mediaType = MEDIA_TYPE_THUMB) then
    (.error (.msg "错误的 mediaType"), [])
  else if filename = "" then
    (.error (.msg "filename == \x22\x22"), [])
  else
    match mediaReader with
    | none => (.error (.msg "mediaReader == nil"), [])
    | some copyResult =>
      match c.tokenResult with
      | .error e => (.error (.msg e), [.tokenFetch])
      | .ok _ =>
        match c.createFormFileResult with
        | .error e => (.error (.msg e), [.tokenFetch, .bufferGet, .bufferPut])
        | .ok _ =>
        match copyResult with
        | .error e => (.error (.msg e), [.tokenFetch, .bufferGet, .bufferPut])
        | .ok _ =>
        match c.closeResult with
        | .error e => (.error (.msg e), [.tokenFetch, .bufferGet, .bufferPut])
        | .ok _ =>
        match c.postResult with
        | .error e =>
          (.error (.msg e), [.tokenFetch, .bufferGet, .httpUpload, .bufferPut])
        | .ok resp =>
          if resp.statusCode ≠ 200 then
            (.error (.msg ("http.Status: " ++ resp.status)),
             [.tokenFetch, .bufferGet, .httpUpload, .bufferPut])
          else if mediaType = MEDIA_TYPE_THUMB then
            match decodeThumbUploadResult resp.body with
            | .error e =>
              (.error (.msg e),
               [.tokenFetch, .bufferGet, .httpUpload, .jsonDecode, .bufferPut])
            | .ok (u, err) =>
              if err.errCode ≠ 0 then
                (.error (.api err),
                 [.tokenFetch, .bufferGet, .httpUpload, .jsonDecode, .bufferPut])
              else
                (.ok u,
                 [.tokenFetch, .bufferGet, .httpUpload, .jsonDecode, .bufferPut])
          else
            match decodeDefaultUploadResult resp.body with
            | .error e =>
              (.error (.msg e),
               [.tokenFetch, .bufferGet, .httpUpload, .jsonDecode, .bufferPut])
            | .ok (u, err) =>
              if err.errCode ≠ 0 then
                (.error (.api err),
                 [.tokenFetch, .bufferGet, .httpUpload, .jsonDecode, .bufferPut])
              else
                (.ok u,
                 [.tokenFetch, .bufferGet, .httpUpload, .jsonDecode, .bufferPut])

/-- `Client.MediaDownload` (`client_media.go`): require a non-empty id
and a non-nil writer, fetch a token, GET the media URL, require HTTP
200, then branch on the parsed Content-Type: anything other than
text/plain or application/json streams the body verbatim into the
sink; otherwise the body is decoded as the error envelope and returned
as the error. The writer is `none` for nil, otherwise the outcome of
writing to the sink. -/
def MediaDownload (c : DownloadWorld) (mediaId : String)
    (writer : Option (Except String Unit)) :
    Except ClientErr Unit × List Event :=
  if mediaId = "" then
    (.error (.msg "mediaId == \x22\x22"), [])
  else
    match writer with
    | none => (.error (.msg "writer == nil"), [])
    | some writeResult =>
      match c.tokenResult with
      | .error e => (.error (.msg e), [.tokenFetch])
      | .ok _ =>
        match c.getResult with
        | .error e => (.error (.msg e), [.tokenFetch, .httpGet])
        | .ok resp =>
          if resp.statusCode ≠ 200 then
            (.error (.msg ("http.Status: " ++ resp.status)), [.tokenFetch, .httpGet])
          else
            let contentType := parseMediaType resp.contentTypeHeader
            if contentType ≠ "text/plain" ∧ contentType ≠ "application/json" then
              match writeResult with
              | .error e => (.error (.msg e), [.tokenFetch, .httpGet])
              | .ok _ => (.ok (), [.tokenFetch, .httpGet, .sinkWrite resp.body])
            else
              match resp.bodyJson with
              | .error e => (.error (.msg e), [.tokenFetch, .httpGet, .jsonDecode])
              | .ok j =>
                match decodeError j with
                | .error e => (.error (.msg e), [.tokenFetch, .httpGet, .jsonDecode])
                | .ok result =>
                  (.error (.api result), [.tokenFetch, .httpGet, .jsonDecode])

/-- `Client.MediaUploadNews` (`client_media.go`): require a non-nil
payload, fetch a token, POST the JSON-encoded payload via `postJSON`,
and translate a non-zero decoded error code into an `Error`. -/
def MediaUploadNews (c : JsonOpWorld) (news : Option News) :
    Except ClientErr UploadResponse × List Event :=
  match news with
  | none => (.error (.msg "news == nil"), [])
  | some payload =>
    match c.tokenResult with
    | .error e => (.error (.msg e), [.tokenFetch])
    | .ok _ =>
      match postJSON c.postResult payload.json decodeDefaultUploadResult with
      | (.error e, evs) => (.error (.msg e), .tokenFetch :: evs)
      | (.ok (u, err), evs) =>
        if err.errCode ≠ 0 then (.error (.api err), .tokenFetch :: evs)
        else (.ok u, .tokenFetch :: evs)

/-- `Client.MediaUploadVideo` (`client_media.go`): same shape as
`MediaUploadNews` for the video-message payload. -/
def MediaUploadVideo (c : JsonOpWorld) (video : Option Video) :
    Except ClientErr UploadResponse × List Event :=
  match video with
  | none => (.error (.msg "video == nil"), [])
  | some payload =>
    match c.tokenResult with
    | .error e => (.error (.msg e), [.tokenFetch])
    | .ok _ =>
      match postJSON c.postResult payload.json decodeDefaultUploadResult with
      | (.error e, evs) => (.error (.msg e), .tokenFetch :: evs)
      | (.ok (u, err), evs) =>
        if err.errCode ≠ 0 then (.error (.api err), .tokenFetch :: evs)
        else (.ok u, .tokenFetch :: evs)

/-- The request record of `MerchantOrderGetById`: only `order_id`,
with no `omitempty`, so always present. -/
def marshalOrderGetByIdRequest (orderId : String) : Json :=
  .obj [("order_id", .str orderId)]

/-- `Client.MerchantOrderGetById` (`client_merchant_order.go`): fetch
a token, POST the order-id request, decode the envelope plus order,
and translate a non-zero decoded error code into an `Error`. Note:
no precondition check on `orderId` is performed. -/
def MerchantOrderGetById (c : JsonOpWorld) (orderId : String) :
    Except ClientErr Order × List Event :=
  match c.tokenResult with
  | .error e => (.error (.msg e), [.tokenFetch])
  | .ok _ =>
    match postJSON c.postResult (marshalOrderGetByIdRequest orderId)
        decodeOrderGetByIdResult with
    | (.error e, evs) => (.error (.msg e), .tokenFetch :: evs)
    | (.ok (ord, err), evs) =>
      if err.errCode ≠ 0 then (.error (.api err), .tokenFetch :: evs)
      else (.ok ord, .tokenFetch :: evs)

/-- The request record of `MerchantOrderGetByFilter`: `status`,
`begintime`, `endtime`, each tagged `omitempty`, so a zero value is
omitted from the encoding entirely (Go encoding/json semantics for
integer fields). -/
def marshalOrderGetByFilterRequest (status beginTime endTime : Int) : Json :=
  .obj ((if status = 0 then [] else [("status", Json.num status)]) ++
        (if beginTime = 0 then [] else [("begintime", Json.num beginTime)]) ++
        (if endTime = 0 then [] else [("endtime", Json.num endTime)]))

/-- `Client.MerchantOrderGetByFilter` (`client_merchant_order.go`):
fetch a token, POST the filter request (zero-valued fields omitted),
decode the envelope plus order list, and translate a non-zero decoded
error code into an `Error`. -/
def MerchantOrderGetByFilter (c : JsonOpWorld) (status beginTime endTime : Int) :
    Except ClientErr (List Order) × List Event :=
  match c.tokenResult with
  | .error e => (.error (.msg e), [.tokenFetch])
  | .ok _ =>
    match postJSON c.postResult
        (marshalOrderGetByFilterRequest status beginTime endTime)
        decodeOrderListResult with
    | (.error e, evs) => (.error (.msg e), .tokenFetch :: evs)
    | (.ok (lst, err), evs) =>
      if err.errCode ≠ 0 then (.error (.api err), .tokenFetch :: evs)
      else (.ok lst, .tokenFetch :: evs)

/-- The request record of `MerchantOrderSetDelivery`: all three fields
untagged with `omitempty`, always present. -/
def marshalOrderSetDeliveryRequest (orderId deliveryCompany deliveryTrackNo : String) :
    Json :=
  .obj [("order_id", .str orderId), ("delivery_company", .str deliveryCompany),
        ("delivery_track_no", .str deliveryTrackNo)]

/-- `Client.MerchantOrderSetDelivery` (`client_merchant_order.go`):
fetch a token, POST the delivery request, decode the bare error
envelope, and return it as the error when its code is non-zero. -/
def MerchantOrderSetDelivery (c : JsonOpWorld)
    (orderId deliveryCompany deliveryTrackNo : String) :
    Except ClientErr Unit × List Event :=
  match c.tokenResult with
  | .error e => (.error (.msg e), [.tokenFetch])
  | .ok _ =>
    match postJSON c.postResult
        (marshalOrderSetDeliveryRequest orderId deliveryCompany deliveryTrackNo)
        decodeError with
    | (.error e, evs) => (.error (.msg e), .tokenFetch :: evs)
    | (.ok err, evs) =>
      if err.errCode ≠ 0 then (.error (.api err), .tokenFetch :: evs)
      else (.ok (), .tokenFetch :: evs)

/-- `Client.MerchantOrderClose` (`client_merchant_order.go`): fetch a
token, POST the order-id request, decode the bare error envelope, and
return it as the error when its code is non-zero. -/
def MerchantOrderClose (c : JsonOpWorld) (orderId : String) :
    Except ClientErr Unit × List Event :=
  match c.tokenResult with
  | .error e => (.error (.msg e), [.tokenFetch])
  | .ok _ =>
    match postJSON c.postResult (marshalOrderGetByIdRequest orderId) decodeError with
    | (.error e, evs) => (.error (.msg e), .tokenFetch :: evs)
    | (.ok err, evs) =>
      if err.errCode ≠ 0 then (.error (.api err), .tokenFetch :: evs)
      else (.ok (), .tokenFetch :: evs)

/-! ## Helper lemmas -/

theorem decodeStrField_strField {j : Json} {k s : String}
    (h : decodeStrField j k = .ok s) : j.strField k = s := by
  unfold decodeStrField Json.strField at *
  rcases hf : j.getField k with _ | v
  · simp [hf] at h; simp [h]
  · cases v <;> simp [hf] at h <;> simp [h]

theorem decodeThumb_mediaId {j : Json} {u : UploadResponse} {e : Error}
    (h : decodeThumbUploadResult j = .ok (u, e)) :
    u.mediaId = j.strField "thumb_media_id" := by
  unfold decodeThumbUploadResult at h
  cases j with
  | null =>
    simp only [Except.ok.injEq, Prod.mk.injEq] at h
    rw [← h.1]
    simp [Json.strField, Json.getField]
  | obj fs =>
    simp only [bind, Except.bind] at h
    rcases ht : decodeStrField (.obj fs) "type" with et | t <;> rw [ht] at h
    · exact absurd h (by simp)
    · rcases hm : decodeStrField (.obj fs) "thumb_media_id" with em | m <;> rw [hm] at h
      · exact absurd h (by simp)
      · rcases hc : decodeIntField (.obj fs) "created_at" with ec | ca <;> rw [hc] at h
        · exact absurd h (by simp)
        · rcases he : decodeError (.obj fs) with ee | er <;> rw [he] at h
          · exact absurd h (by simp)
          · simp only [Except.ok.injEq, Prod.mk.injEq] at h
            rw [← h.1]
            exact (decodeStrField_strField hm).symm
  | str s => exact absurd h (by simp)
  | num n => exact absurd h (by simp)
  | arr a => exact absurd h (by simp)

theorem decodeDefault_mediaId {j : Json} {u : UploadResponse} {e : Error}
    (h : decodeDefaultUploadResult j = .ok (u, e)) :
    u.mediaId = j.strField "media_id" := by
  unfold decodeDefaultUploadResult at h
  cases j with
  | null =>
    simp only [Except.ok.injEq, Prod.mk.injEq] at h
    rw [← h.1]
    simp [Json.strField, Json.getField]
  | obj fs =>
    simp only [bind, Except.bind] at h
    rcases ht : decodeStrField (.obj fs) "type" with et | t <;> rw [ht] at h
    · exact absurd h (by simp)
    · rcases hm : decodeStrField (.obj fs) "media_id" with em | m <;> rw [hm] at h
      · exact absurd h (by simp)
      · rcases hc : decodeIntField (.obj fs) "created_at" with ec | ca <;> rw [hc] at h
        · exact absurd h (by simp)
        · rcases he : decodeError (.obj fs) with ee | er <;> rw [he] at h
          · exact absurd h (by simp)
          · simp only [Except.ok.injEq, Prod.mk.injEq] at h
            rw [← h.1]
            exact (decodeStrField_strField hm).symm
  | str s => exact absurd h (by simp)
  | num n => exact absurd h (by simp)
  | arr a => exact absurd h (by simp)

/-! ## Claim theorems -/

/-- C2: for every successful `MediaUpload` call, the returned
`UploadResponse.mediaId` is populated from the response JSON field
`thumb_media_id` when the media type is thumb, and from `media_id`
for the other three media types — both through the same result field. -/
theorem mediaUpload_mediaId_field_mapping
    (c : UploadWorld) (mt fn : String) (rd : Option (Except String Unit))
    (resp : HttpResponse) (u : UploadResponse) (tr : List Event)
    (hpost : c.postResult = .ok resp)
    (hok : MediaUpload c mt fn rd = (.ok u, tr)) :
    u.mediaId = resp.body.strField
      (if mt = MEDIA_TYPE_THUMB then "thumb_media_id" else "media_id") := by
  obtain ⟨ctok, ccff, ccls, cpost⟩ := c
  simp only at hpost
  subst hpost
  unfold MediaUpload at hok
  repeat' split at hok
  all_goals simp only [Prod.mk.injEq, Except.ok.injEq] at hok
  all_goals try exact absurd hok.1 (by simp)
  · rename_i post2 resp2 hposteq hstat hthumb x u2 err2 hdec h0
    injection hposteq with hre
    subst hre
    rw [if_pos hthumb, ← hok.1]
    exact decodeThumb_mediaId hdec
  · rename_i post2 resp2 hposteq hstat hthumb x u2 err2 hdec h0
    injection hposteq with hre
    subst hre
    rw [if_neg hthumb, ← hok.1]
    exact decodeDefault_mediaId hdec

/-- Witness for C2: a concrete successful thumb upload whose
response body carries `thumb_media_id = "MID"` yields `mediaId = "MID"`. -/
theorem mediaUpload_mediaId_field_mapping_witness :
    (⟨"thumb", "MID", 5⟩ : UploadResponse).mediaId =
      (Json.obj [("type", Json.str "thumb"), ("thumb_media_id", Json.str "MID"),
        ("created_at", Json.num 5)]).strField
        (if "thumb" = MEDIA_TYPE_THUMB then "thumb_media_id" else "media_id") := by
  exact mediaUpload_mediaId_field_mapping
    ⟨.ok "TOK", .ok (), .ok (),
      .ok ⟨200, "200 OK", Json.obj [("type", Json.str "thumb"),
        ("thumb_media_id", Json.str "MID"), ("created_at", Json.num 5)]⟩⟩
    "thumb" "f.jpg" (some (.ok ()))
    ⟨200, "200 OK", Json.obj [("type", Json.str "thumb"),
      ("thumb_media_id", Json.str "MID"), ("created_at", Json.num 5)]⟩
    ⟨"thumb", "MID", 5⟩
    [Event.tokenFetch, Event.bufferGet, Event.httpUpload, Event.jsonDecode, Event.bufferPut]
    rfl rfl

/-- C8: on every exit path of `MediaUpload` — success, multipart-encode
failure, HTTP failure, non-200 status, decode failure, remote error —
the number of buffers drawn from the pool equals the number returned to
it: no path leaks a pooled buffer. -/
theorem mediaUpload_buffer_pool_balanced
    (c : UploadWorld) (mt fn : String) (rd : Option (Except String Unit)) :
    ((MediaUpload c mt fn rd).2.countP Event.isBufferGet) =
    ((MediaUpload c mt fn rd).2.countP Event.isBufferPut) := by
  unfold MediaUpload
  repeat' split <;> try rfl

/-- C3: when the HTTP response has status 200 and a declared content
type that is neither text/plain nor application/json, `MediaDownload`
writes the full response body verbatim to the sink (the single
`sinkWrite resp.body` event) and returns no error. -/
theorem mediaDownload_binary_branch_writes_body
    (c : DownloadWorld) (mid tk : String) (resp : DownloadResponse)
    (h1 : mid ≠ "")
    (h2 : c.tokenResult = .ok tk)
    (h3 : c.getResult = .ok resp)
    (h4 : resp.statusCode = 200)
    (h5 : parseMediaType resp.contentTypeHeader ≠ "text/plain")
    (h6 : parseMediaType resp.contentTypeHeader ≠ "application/json") :
    MediaDownload c mid (some (.ok ())) =
      (.ok (), [.tokenFetch, .httpGet, .sinkWrite resp.body]) := by
  unfold MediaDownload
  rw [h2, h3]
  simp [h1, h4, h5, h6]

/-- Witness for C3: a 200 response with content type
application/octet-stream and body bytes [1, 2, 3] is streamed
verbatim to the sink with no error. -/
theorem mediaDownload_binary_branch_writes_body_witness :
    MediaDownload ⟨.ok "TOK", .ok ⟨200, "200 OK", "application/octet-stream",
        [1, 2, 3], .error "invalid json"⟩⟩ "m" (some (.ok ())) =
      (.ok (), [.tokenFetch, .httpGet, .sinkWrite [1, 2, 3]]) := by
  exact mediaDownload_binary_branch_writes_body
    ⟨.ok "TOK", .ok ⟨200, "200 OK", "application/octet-stream",
      [1, 2, 3], .error "invalid json"⟩⟩ "m" "TOK"
    ⟨200, "200 OK", "application/octet-stream", [1, 2, 3], .error "invalid json"⟩
    (by decide) rfl rfl rfl (by decide) (by decide)

/-- C4: when the HTTP response has status 200, content type
application/json, and a body decoding as a JSON error envelope,
`MediaDownload` returns that envelope verbatim as the error and
writes nothing to the sink (the trace holds no `sinkWrite`). -/
theorem mediaDownload_json_error_branch
    (c : DownloadWorld) (mid tk : String) (w : Except String Unit)
    (resp : DownloadResponse) (j : Json) (e : Error)
    (h1 : mid ≠ "") (h2 : c.tokenResult = .ok tk) (h3 : c.getResult = .ok resp)
    (h4 : resp.statusCode = 200)
    (h5 : parseMediaType resp.contentTypeHeader = "application/json")
    (h6 : resp.bodyJson = .ok j)
    (h7 : decodeError j = .ok e) :
    MediaDownload c mid (some w) =
      (.error (.api e), [.tokenFetch, .httpGet, .jsonDecode]) := by
  unfold MediaDownload
  rw [h2, h3]
  simp [h1, h4, h5, h6, h7]

/-- Witness for C4: a 200 application/json response with body
errcode 40007 / errmsg "invalid media_id" yields exactly that error
and no sink write. -/
theorem mediaDownload_json_error_branch_witness :
    MediaDownload ⟨.ok "TOK", .ok ⟨200, "200 OK", "application/json", [],
        .ok (Json.obj [("errcode", Json.num 40007), ("errmsg", Json.str "invalid media_id")])⟩⟩
      "m" (some (.ok ())) =
      (.error (.api ⟨40007, "invalid media_id"⟩), [.tokenFetch, .httpGet, .jsonDecode]) := by
  exact mediaDownload_json_error_branch
    ⟨.ok "TOK", .ok ⟨200, "200 OK", "application/json", [],
      .ok (Json.obj [("errcode", Json.num 40007), ("errmsg", Json.str "invalid media_id")])⟩⟩
    "m" "TOK" (.ok ())
    ⟨200, "200 OK", "application/json", [],
      .ok (Json.obj [("errcode", Json.num 40007), ("errmsg", Json.str "invalid media_id")])⟩
    (Json.obj [("errcode", Json.num 40007), ("errmsg", Json.str "invalid media_id")])
    ⟨40007, "invalid media_id"⟩
    (by decide) rfl rfl rfl (by decide) rfl rfl

/-- C10: with status 200 and content type text/plain or
application/json, whenever the body decodes as a JSON error envelope
`MediaDownload` returns it as a non-nil error — even when the decoded
error code is 0 — and never writes to the sink in that branch. -/
theorem mediaDownload_textual_body_always_error
    (c : DownloadWorld) (mid tk : String) (w : Except String Unit)
    (resp : DownloadResponse) (j : Json) (e : Error)
    (h1 : mid ≠ "") (h2 : c.tokenResult = .ok tk) (h3 : c.getResult = .ok resp)
    (h4 : resp.statusCode = 200)
    (h5 : parseMediaType resp.contentTypeHeader = "text/plain" ∨
          parseMediaType resp.contentTypeHeader = "application/json")
    (h6 : resp.bodyJson = .ok j)
    (h7 : decodeError j = .ok e) :
    (MediaDownload c mid (some w)).1 = .error (.api e) ∧
    (MediaDownload c mid (some w)).2.countP Event.isSinkWrite = 0 := by
  unfold MediaDownload
  rw [h2, h3]
  rcases h5 with h5 | h5 <;>
    simp [h1, h4, h5, h6, h7, List.countP, List.countP.go, Event.isSinkWrite]

/-- Witness for C10: a text/plain 200 response decoding to the
envelope with error code 0 still yields an error and no sink write. -/
theorem mediaDownload_textual_body_always_error_witness :
    (MediaDownload ⟨.ok "TOK", .ok ⟨200, "200 OK", "text/plain", [],
        .ok (Json.obj [("errcode", Json.num 0), ("errmsg", Json.str "")])⟩⟩
      "m" (some (.ok ()))).1 = .error (.api ⟨0, ""⟩) ∧
    (MediaDownload ⟨.ok "TOK", .ok ⟨200, "200 OK", "text/plain", [],
        .ok (Json.obj [("errcode", Json.num 0), ("errmsg", Json.str "")])⟩⟩
      "m" (some (.ok ()))).2.countP Event.isSinkWrite = 0 := by
  exact mediaDownload_textual_body_always_error
    ⟨.ok "TOK", .ok ⟨200, "200 OK", "text/plain", [],
      .ok (Json.obj [("errcode", Json.num 0), ("errmsg", Json.str "")])⟩⟩
    "m" "TOK" (.ok ())
    ⟨200, "200 OK", "text/plain", [],
      .ok (Json.obj [("errcode", Json.num 0), ("errmsg", Json.str "")])⟩
    (Json.obj [("errcode", Json.num 0), ("errmsg", Json.str "")])
    ⟨0, ""⟩
    (by decide) rfl rfl rfl (Or.inl (by decide)) rfl rfl

/-- C5: the serialized `MerchantOrderGetByFilter` request omits each of
`status`, `begintime`, `endtime` entirely when its value is zero (all
three absent for status=0, beginTime=0, endTime=0) and includes a key
exactly when its value is non-zero; and the operation posts exactly
that serialized body. -/
theorem merchantOrderGetByFilter_omits_zero_fields
    (c : JsonOpWorld) (tk : String) (s b e : Int)
    (htok : c.tokenResult = .ok tk) :
    ((marshalOrderGetByFilterRequest 0 0 0).hasKey "status" = false ∧
     (marshalOrderGetByFilterRequest 0 0 0).hasKey "begintime" = false ∧
     (marshalOrderGetByFilterRequest 0 0 0).hasKey "endtime" = false) ∧
    ((s ≠ 0 → (marshalOrderGetByFilterRequest s b e).hasKey "status" = true) ∧
     (b ≠ 0 → (marshalOrderGetByFilterRequest s b e).hasKey "begintime" = true) ∧
     (e ≠ 0 → (marshalOrderGetByFilterRequest s b e).hasKey "endtime" = true)) ∧
    (MerchantOrderGetByFilter c s b e).2.filterMap Event.postedBody =
      [marshalOrderGetByFilterRequest s b e] := by
  refine ⟨⟨by decide, by decide, by decide⟩, ⟨?_, ?_, ?_⟩, ?_⟩
  · intro hs; simp [marshalOrderGetByFilterRequest, Json.hasKey, hs]
  · intro hb; simp [marshalOrderGetByFilterRequest, Json.hasKey, hb]
  · intro he; simp [marshalOrderGetByFilterRequest, Json.hasKey, he]
  · unfold MerchantOrderGetByFilter postJSON
    rw [htok]
    rcases hp : c.postResult with pe | resp
    · simp [hp, Event.postedBody, List.filterMap]
    · by_cases hst : resp.statusCode = 200
      · rcases hd : decodeOrderListResult resp.body with de | pr
        · simp [hp, hst, hd, Event.postedBody, List.filterMap]
        · by_cases hec : pr.2.errCode = 0 <;>
            simp [hp, hst, hd, hec, Event.postedBody, List.filterMap]
      · simp [hp, hst, Event.postedBody, List.filterMap]

/-- Witness for C5: the filter request for status=2, beginTime=5,
endTime=7 carries all three keys, the all-zero request none, and the
posted body is exactly the serialized request. -/
theorem merchantOrderGetByFilter_omits_zero_fields_witness :
    ((marshalOrderGetByFilterRequest 0 0 0).hasKey "status" = false ∧
     (marshalOrderGetByFilterRequest 0 0 0).hasKey "begintime" = false ∧
     (marshalOrderGetByFilterRequest 0 0 0).hasKey "endtime" = false) ∧
    (((2 : Int) ≠ 0 → (marshalOrderGetByFilterRequest 2 5 7).hasKey "status" = true) ∧
     ((5 : Int) ≠ 0 → (marshalOrderGetByFilterRequest 2 5 7).hasKey "begintime" = true) ∧
     ((7 : Int) ≠ 0 → (marshalOrderGetByFilterRequest 2 5 7).hasKey "endtime" = true)) ∧
    (MerchantOrderGetByFilter ⟨.ok "TOK", .error "net down"⟩ 2 5 7).2.filterMap
        Event.postedBody = [marshalOrderGetByFilterRequest 2 5 7] :=
  merchantOrderGetByFilter_omits_zero_fields ⟨.ok "TOK", .error "net down"⟩ "TOK" 2 5 7 rfl

theorem postJSON_non200 {α : Type} (resp : HttpResponse) (req : Json)
    (decode : Json → Except String α) (h : resp.statusCode ≠ 200) :
    postJSON (.ok resp) req decode =
      (.error ("http.Status: " ++ resp.status), [.httpPostJSON req]) := by
  unfold postJSON
  simp [h]

/-- C6: on every exposed operation, a non-200 HTTP status yields an
error carrying that status ("http.Status: " ++ status line), and the
trace holds no `jsonDecode` event: the error is produced before any
JSON decoding of the response body. -/
theorem non200_status_error_before_decode
    (cu : UploadWorld) (cd : DownloadWorld) (cj : JsonOpWorld)
    (tk mt fn mid oid dc dt : String) (s b e : Int) (nw : News) (vd : Video)
    (respU : HttpResponse) (respD : DownloadResponse) (respJ : HttpResponse)
    (hmt : mt = MEDIA_TYPE_IMAGE ∨ mt = MEDIA_TYPE_VOICE ∨
           mt = MEDIA_TYPE_VIDEO ∨ mt = MEDIA_TYPE_THUMB)
    (hfn : fn ≠ "") (hmid : mid ≠ "")
    (hcuTok : cu.tokenResult = .ok tk)
    (hcff : cu.createFormFileResult = .ok ())
    (hcls : cu.closeResult = .ok ())
    (hcuPost : cu.postResult = .ok respU)
    (hcdTok : cd.tokenResult = .ok tk)
    (hcdGet : cd.getResult = .ok respD)
    (hcjTok : cj.tokenResult = .ok tk)
    (hcjPost : cj.postResult = .ok respJ)
    (hsU : respU.statusCode ≠ 200)
    (hsD : respD.statusCode ≠ 200)
    (hsJ : respJ.statusCode ≠ 200) :
    MediaUpload cu mt fn (some (.ok ())) =
      (.error (.msg ("http.Status: " ++ respU.status)),
       [.tokenFetch, .bufferGet, .httpUpload, .bufferPut]) ∧
    MediaDownload cd mid (some (.ok ())) =
      (.error (.msg ("http.Status: " ++ respD.status)), [.tokenFetch, .httpGet]) ∧
    MediaUploadNews cj (some nw) =
      (.error (.msg ("http.Status: " ++ respJ.status)),
       [.tokenFetch, .httpPostJSON nw.json]) ∧
    MediaUploadVideo cj (some vd) =
      (.error (.msg ("http.Status: " ++ respJ.status)),
       [.tokenFetch, .httpPostJSON vd.json]) ∧
    MerchantOrderGetById cj oid =
      (.error (.msg ("http.Status: " ++ respJ.status)),
       [.tokenFetch, .httpPostJSON (marshalOrderGetByIdRequest oid)]) ∧
    MerchantOrderGetByFilter cj s b e =
      (.error (.msg ("http.Status: " ++ respJ.status)),
       [.tokenFetch, .httpPostJSON (marshalOrderGetByFilterRequest s b e)]) ∧
    MerchantOrderSetDelivery cj oid dc dt =
      (.error (.msg ("http.Status: " ++ respJ.status)),
       [.tokenFetch, .httpPostJSON (marshalOrderSetDeliveryRequest oid dc dt)]) ∧
    MerchantOrderClose cj oid =
      (.error (.msg ("http.Status: " ++ respJ.status)),
       [.tokenFetch, .httpPostJSON (marshalOrderGetByIdRequest oid)]) := by
  have hv : mt = MEDIA_TYPE_IMAGE ∨ mt = MEDIA_TYPE_VOICE ∨
      mt = MEDIA_TYPE_VIDEO ∨ mt = MEDIA_TYPE_THUMB := hmt
  refine ⟨?_, ?_, ?_, ?_, ?_, ?_, ?_, ?_⟩
  · unfold MediaUpload
    rw [if_neg (not_not_intro hv), hcuTok, hcff, hcls, hcuPost]
    simp [hfn, hsU]
  · unfold MediaDownload
    rw [hcdTok, hcdGet]
    simp [hmid, hsD]
  · unfold MediaUploadNews
    rw [hcjTok, hcjPost]
    dsimp only
    rw [postJSON_non200 respJ nw.json decodeDefaultUploadResult hsJ]
  · unfold MediaUploadVideo
    rw [hcjTok, hcjPost]
    dsimp only
    rw [postJSON_non200 respJ vd.json decodeDefaultUploadResult hsJ]
  · unfold MerchantOrderGetById
    rw [hcjTok, hcjPost]
    dsimp only
    rw [postJSON_non200 respJ _ decodeOrderGetByIdResult hsJ]
  · unfold MerchantOrderGetByFilter
    rw [hcjTok, hcjPost]
    dsimp only
    rw [postJSON_non200 respJ _ decodeOrderListResult hsJ]
  · unfold MerchantOrderSetDelivery
    rw [hcjTok, hcjPost]
    dsimp only
    rw [postJSON_non200 respJ _ decodeError hsJ]
  · unfold MerchantOrderClose
    rw [hcjTok, hcjPost]
    dsimp only
    rw [postJSON_non200 respJ _ decodeError hsJ]

/-- Witness for C6: a 500 "Internal Server Error" response on each of
the eight operations yields the status-derived error with no decode
event. -/
theorem non200_status_error_before_decode_witness :
    MediaUpload ⟨.ok "TOK", .ok (), .ok (), .ok ⟨500, "500 Internal Server Error", .null⟩⟩
        "image" "f.jpg" (some (.ok ())) =
      (.error (.msg ("http.Status: " ++ "500 Internal Server Error")),
       [.tokenFetch, .bufferGet, .httpUpload, .bufferPut]) ∧
    MediaDownload ⟨.ok "TOK", .ok ⟨500, "500 Internal Server Error",
        "application/octet-stream", [], .error "x"⟩⟩ "m" (some (.ok ())) =
      (.error (.msg ("http.Status: " ++ "500 Internal Server Error")),
       [.tokenFetch, .httpGet]) ∧
    MediaUploadNews ⟨.ok "TOK", .ok ⟨500, "500 Internal Server Error", .null⟩⟩
        (some ⟨Json.obj []⟩) =
      (.error (.msg ("http.Status: " ++ "500 Internal Server Error")),
       [.tokenFetch, .httpPostJSON (News.mk (Json.obj [])).json]) ∧
    MediaUploadVideo ⟨.ok "TOK", .ok ⟨500, "500 Internal Server Error", .null⟩⟩
        (some ⟨Json.obj []⟩) =
      (.error (.msg ("http.Status: " ++ "500 Internal Server Error")),
       [.tokenFetch, .httpPostJSON (Video.mk (Json.obj [])).json]) ∧
    MerchantOrderGetById ⟨.ok "TOK", .ok ⟨500, "500 Internal Server Error", .null⟩⟩ "o1" =
      (.error (.msg ("http.Status: " ++ "500 Internal Server Error")),
       [.tokenFetch, .httpPostJSON (marshalOrderGetByIdRequest "o1")]) ∧
    MerchantOrderGetByFilter ⟨.ok "TOK", .ok ⟨500, "500 Internal Server Error", .null⟩⟩ 2 5 7 =
      (.error (.msg ("http.Status: " ++ "500 Internal Server Error")),
       [.tokenFetch, .httpPostJSON (marshalOrderGetByFilterRequest 2 5 7)]) ∧
    MerchantOrderSetDelivery ⟨.ok "TOK", .ok ⟨500, "500 Internal Server Error", .null⟩⟩
        "o1" "SF" "T123" =
      (.error (.msg ("http.Status: " ++ "500 Internal Server Error")),
       [.tokenFetch, .httpPostJSON (marshalOrderSetDeliveryRequest "o1" "SF" "T123")]) ∧
    MerchantOrderClose ⟨.ok "TOK", .ok ⟨500, "500 Internal Server Error", .null⟩⟩ "o1" =
      (.error (.msg ("http.Status: " ++ "500 Internal Server Error")),
       [.tokenFetch, .httpPostJSON (marshalOrderGetByIdRequest "o1")]) :=
  non200_status_error_before_decode
    ⟨.ok "TOK", .ok (), .ok (), .ok ⟨500, "500 Internal Server Error", .null⟩⟩
    ⟨.ok "TOK", .ok ⟨500, "500 Internal Server Error",
      "application/octet-stream", [], .error "x"⟩⟩
    ⟨.ok "TOK", .ok ⟨500, "500 Internal Server Error", .null⟩⟩
    "TOK" "image" "f.jpg" "m" "o1" "SF" "T123" 2 5 7 ⟨Json.obj []⟩ ⟨Json.obj []⟩
    ⟨500, "500 Internal Server Error", .null⟩
    ⟨500, "500 Internal Server Error", "application/octet-stream", [], .error "x"⟩
    ⟨500, "500 Internal Server Error", .null⟩
    (Or.inl rfl) (by decide) (by decide) rfl rfl rfl rfl rfl rfl rfl rfl
    (by decide) (by decide) (by decide)

theorem postJSON_200 {α : Type} (resp : HttpResponse) (req : Json)
    (decode : Json → Except String α) (a : α)
    (h : resp.statusCode = 200) (hd : decode resp.body = .ok a) :
    postJSON (.ok resp) req decode = (.ok a, [.httpPostJSON req, .jsonDecode]) := by
  unfold postJSON
  simp [h, hd]

/-- C7: each of the five result-returning operations returns the
decoded payload exactly when the decoded error envelope's code is 0,
and otherwise fails with the envelope itself (code and message
verbatim) in place of any result. -/
theorem result_only_on_zero_errcode
    (cu : UploadWorld) (cj : JsonOpWorld) (tk mt fn oid : String)
    (s b e : Int) (nw : News) (vd : Video)
    (respU respJ : HttpResponse)
    (uU uJ : UploadResponse) (eU eJ eG eF : Error)
    (ord : Order) (lst : List Order)
    (hmt : mt = MEDIA_TYPE_IMAGE ∨ mt = MEDIA_TYPE_VOICE ∨
           mt = MEDIA_TYPE_VIDEO ∨ mt = MEDIA_TYPE_THUMB)
    (hfn : fn ≠ "")
    (hcuTok : cu.tokenResult = .ok tk)
    (hcff : cu.createFormFileResult = .ok ())
    (hcls : cu.closeResult = .ok ())
    (hcuPost : cu.postResult = .ok respU)
    (hcjTok : cj.tokenResult = .ok tk)
    (hcjPost : cj.postResult = .ok respJ)
    (hsU : respU.statusCode = 200) (hsJ : respJ.statusCode = 200)
    (hdU : (if mt = MEDIA_TYPE_THUMB then decodeThumbUploadResult
            else decodeDefaultUploadResult) respU.body = .ok (uU, eU))
    (hdJ : decodeDefaultUploadResult respJ.body = .ok (uJ, eJ))
    (hdG : decodeOrderGetByIdResult respJ.body = .ok (ord, eG))
    (hdF : decodeOrderListResult respJ.body = .ok (lst, eF)) :
    (MediaUpload cu mt fn (some (.ok ()))).1 =
      (if eU.errCode = 0 then .ok uU else .error (.api eU)) ∧
    (MediaUploadNews cj (some nw)).1 =
      (if eJ.errCode = 0 then .ok uJ else .error (.api eJ)) ∧
    (MediaUploadVideo cj (some vd)).1 =
      (if eJ.errCode = 0 then .ok uJ else .error (.api eJ)) ∧
    (MerchantOrderGetById cj oid).1 =
      (if eG.errCode = 0 then .ok ord else .error (.api eG)) ∧
    (MerchantOrderGetByFilter cj s b e).1 =
      (if eF.errCode = 0 then .ok lst else .error (.api eF)) := by
  have hv : mt = MEDIA_TYPE_IMAGE ∨ mt = MEDIA_TYPE_VOICE ∨
      mt = MEDIA_TYPE_VIDEO ∨ mt = MEDIA_TYPE_THUMB := hmt
  refine ⟨?_, ?_, ?_, ?_, ?_⟩
  · unfold MediaUpload
    rw [if_neg (not_not_intro hv), hcuTok, hcff, hcls, hcuPost]
    dsimp only
    rw [if_neg (not_not_intro hsU)]
    by_cases hth : mt = MEDIA_TYPE_THUMB
    · rw [if_pos hth] at hdU ⊢
      rw [hdU]
      dsimp only
      by_cases hz : eU.errCode = 0 <;> simp [hz, hfn]
    · rw [if_neg hth] at hdU ⊢
      rw [hdU]
      dsimp only
      by_cases hz : eU.errCode = 0 <;> simp [hz, hfn]
  · unfold MediaUploadNews
    rw [hcjTok]
    dsimp only
    rw [hcjPost, postJSON_200 respJ nw.json decodeDefaultUploadResult (uJ, eJ) hsJ hdJ]
    dsimp only
    by_cases hz : eJ.errCode = 0 <;> simp [hz]
  · unfold MediaUploadVideo
    rw [hcjTok]
    dsimp only
    rw [hcjPost, postJSON_200 respJ vd.json decodeDefaultUploadResult (uJ, eJ) hsJ hdJ]
    dsimp only
    by_cases hz : eJ.errCode = 0 <;> simp [hz]
  · unfold MerchantOrderGetById
    rw [hcjTok]
    dsimp only
    rw [hcjPost, postJSON_200 respJ _ decodeOrderGetByIdResult (ord, eG) hsJ hdG]
    dsimp only
    by_cases hz : eG.errCode = 0 <;> simp [hz]
  · unfold MerchantOrderGetByFilter
    rw [hcjTok]
    dsimp only
    rw [hcjPost, postJSON_200 respJ _ decodeOrderListResult (lst, eF) hsJ hdF]
    dsimp only
    by_cases hz : eF.errCode = 0 <;> simp [hz]

/-- Witness for C7: a thumb upload whose envelope code is 0 yields the
result, and JSON operations whose envelope code is 40001 yield the
envelope as the error. -/
theorem result_only_on_zero_errcode_witness :
    (MediaUpload ⟨.ok "TOK", .ok (), .ok (), .ok ⟨200, "200 OK",
        Json.obj [("type", Json.str "thumb"), ("thumb_media_id", Json.str "TMID"),
          ("created_at", Json.num 3)]⟩⟩ "thumb" "f.jpg" (some (.ok ()))).1 =
      (if (Error.mk 0 "").errCode = 0 then .ok ⟨"thumb", "TMID", 3⟩
       else .error (.api ⟨0, ""⟩)) ∧
    (MediaUploadNews ⟨.ok "TOK", .ok ⟨200, "200 OK",
        Json.obj [("errcode", Json.num 40001), ("errmsg", Json.str "invalid credential"),
          ("media_id", Json.str "MID"), ("created_at", Json.num 9),
          ("order", Json.obj [("order_id", Json.str "o1")]),
          ("order_list", Json.arr [])]⟩⟩ (some ⟨Json.obj []⟩)).1 =
      (if (Error.mk 40001 "invalid credential").errCode = 0 then .ok ⟨"", "MID", 9⟩
       else .error (.api ⟨40001, "invalid credential"⟩)) ∧
    (MediaUploadVideo ⟨.ok "TOK", .ok ⟨200, "200 OK",
        Json.obj [("errcode", Json.num 40001), ("errmsg", Json.str "invalid credential"),
          ("media_id", Json.str "MID"), ("created_at", Json.num 9),
          ("order", Json.obj [("order_id", Json.str "o1")]),
          ("order_list", Json.arr [])]⟩⟩ (some ⟨Json.obj []⟩)).1 =
      (if (Error.mk 40001 "invalid credential").errCode = 0 then .ok ⟨"", "MID", 9⟩
       else .error (.api ⟨40001, "invalid credential"⟩)) ∧
    (MerchantOrderGetById ⟨.ok "TOK", .ok ⟨200, "200 OK",
        Json.obj [("errcode", Json.num 40001), ("errmsg", Json.str "invalid credential"),
          ("media_id", Json.str "MID"), ("created_at", Json.num 9),
          ("order", Json.obj [("order_id", Json.str "o1")]),
          ("order_list", Json.arr [])]⟩⟩ "o1").1 =
      (if (Error.mk 40001 "invalid credential").errCode = 0 then
        .ok ⟨Json.obj [("order_id", Json.str "o1")]⟩
       else .error (.api ⟨40001, "invalid credential"⟩)) ∧
    (MerchantOrderGetByFilter ⟨.ok "TOK", .ok ⟨200, "200 OK",
        Json.obj [("errcode", Json.num 40001), ("errmsg", Json.str "invalid credential"),
          ("media_id", Json.str "MID"), ("created_at", Json.num 9),
          ("order", Json.obj [("order_id", Json.str "o1")]),
          ("order_list", Json.arr [])]⟩⟩ 2 5 7).1 =
      (if (Error.mk 40001 "invalid credential").errCode = 0 then .ok []
       else .error (.api ⟨40001, "invalid credential"⟩)) :=
  result_only_on_zero_errcode
    ⟨.ok "TOK", .ok (), .ok (), .ok ⟨200, "200 OK",
      Json.obj [("type", Json.str "thumb"), ("thumb_media_id", Json.str "TMID"),
        ("created_at", Json.num 3)]⟩⟩
    ⟨.ok "TOK", .ok ⟨200, "200 OK",
      Json.obj [("errcode", Json.num 40001), ("errmsg", Json.str "invalid credential"),
        ("media_id", Json.str "MID"), ("created_at", Json.num 9),
        ("order", Json.obj [("order_id", Json.str "o1")]),
        ("order_list", Json.arr [])]⟩⟩
    "TOK" "thumb" "f.jpg" "o1" 2 5 7 ⟨Json.obj []⟩ ⟨Json.obj []⟩
    ⟨200, "200 OK", Json.obj [("type", Json.str "thumb"),
      ("thumb_media_id", Json.str "TMID"), ("created_at", Json.num 3)]⟩
    ⟨200, "200 OK", Json.obj [("errcode", Json.num 40001),
      ("errmsg", Json.str "invalid credential"), ("media_id", Json.str "MID"),
      ("created_at", Json.num 9), ("order", Json.obj [("order_id", Json.str "o1")]),
      ("order_list", Json.arr [])]⟩
    ⟨"thumb", "TMID", 3⟩ ⟨"", "MID", 9⟩ ⟨0, ""⟩ ⟨40001, "invalid credential"⟩
    ⟨40001, "invalid credential"⟩ ⟨40001, "invalid credential"⟩
    ⟨Json.obj [("order_id", Json.str "o1")]⟩ []
    (Or.inr (Or.inr (Or.inr rfl))) (by decide)
    rfl rfl rfl rfl rfl rfl rfl rfl rfl rfl rfl rfl

/-- C9: `MediaUploadNews` / `MediaUploadVideo` with a nil payload
return the precondition error with an empty trace (no token fetch, no
network call); with a non-nil payload the JSON-encoded payload is the
posted body, and the embedded result is returned exactly when the
decoded error code is 0, the envelope being the error otherwise. -/
theorem mediaUploadNewsVideo_nil_and_success
    (cj : JsonOpWorld) (tk : String) (nw : News) (vd : Video)
    (respJ : HttpResponse) (u : UploadResponse) (err : Error)
    (htok : cj.tokenResult = .ok tk)
    (hpost : cj.postResult = .ok respJ)
    (hs : respJ.statusCode = 200)
    (hd : decodeDefaultUploadResult respJ.body = .ok (u, err)) :
    (∀ c2 : JsonOpWorld, MediaUploadNews c2 none = (.error (.msg "news == nil"), [])) ∧
    (∀ c2 : JsonOpWorld, MediaUploadVideo c2 none = (.error (.msg "video == nil"), [])) ∧
    (MediaUploadNews cj (some nw)).2.filterMap Event.postedBody = [nw.json] ∧
    (MediaUploadVideo cj (some vd)).2.filterMap Event.postedBody = [vd.json] ∧
    (MediaUploadNews cj (some nw)).1 =
      (if err.errCode = 0 then .ok u else .error (.api err)) ∧
    (MediaUploadVideo cj (some vd)).1 =
      (if err.errCode = 0 then .ok u else .error (.api err)) := by
  refine ⟨fun c2 => rfl, fun c2 => rfl, ?_, ?_, ?_, ?_⟩
  · unfold MediaUploadNews
    rw [htok]
    dsimp only
    rw [hpost, postJSON_200 respJ nw.json decodeDefaultUploadResult (u, err) hs hd]
    dsimp only
    by_cases hz : err.errCode = 0 <;> simp [hz, Event.postedBody, List.filterMap]
  · unfold MediaUploadVideo
    rw [htok]
    dsimp only
    rw [hpost, postJSON_200 respJ vd.json decodeDefaultUploadResult (u, err) hs hd]
    dsimp only
    by_cases hz : err.errCode = 0 <;> simp [hz, Event.postedBody, List.filterMap]
  · unfold MediaUploadNews
    rw [htok]
    dsimp only
    rw [hpost, postJSON_200 respJ nw.json decodeDefaultUploadResult (u, err) hs hd]
    dsimp only
    by_cases hz : err.errCode = 0 <;> simp [hz]
  · unfold MediaUploadVideo
    rw [htok]
    dsimp only
    rw [hpost, postJSON_200 respJ vd.json decodeDefaultUploadResult (u, err) hs hd]
    dsimp only
    by_cases hz : err.errCode = 0 <;> simp [hz]

/-- Witness for C9: concrete nil calls fail fast with empty traces,
and concrete non-nil calls post the payload and return the embedded
result for error code 0. -/
theorem mediaUploadNewsVideo_nil_and_success_witness :
    (∀ c2 : JsonOpWorld, MediaUploadNews c2 none = (.error (.msg "news == nil"), [])) ∧
    (∀ c2 : JsonOpWorld, MediaUploadVideo c2 none = (.error (.msg "video == nil"), [])) ∧
    (MediaUploadNews ⟨.ok "TOK", .ok ⟨200, "200 OK",
        Json.obj [("media_id", Json.str "MID"), ("created_at", Json.num 9)]⟩⟩
      (some ⟨Json.obj [("articles", Json.arr [])]⟩)).2.filterMap Event.postedBody =
      [(News.mk (Json.obj [("articles", Json.arr [])])).json] ∧
    (MediaUploadVideo ⟨.ok "TOK", .ok ⟨200, "200 OK",
        Json.obj [("media_id", Json.str "MID"), ("created_at", Json.num 9)]⟩⟩
      (some ⟨Json.obj [("title", Json.str "t")]⟩)).2.filterMap Event.postedBody =
      [(Video.mk (Json.obj [("title", Json.str "t")])).json] ∧
    (MediaUploadNews ⟨.ok "TOK", .ok ⟨200, "200 OK",
        Json.obj [("media_id", Json.str "MID"), ("created_at", Json.num 9)]⟩⟩
      (some ⟨Json.obj [("articles", Json.arr [])]⟩)).1 =
      (if (Error.mk 0 "").errCode = 0 then .ok ⟨"", "MID", 9⟩ else .error (.api ⟨0, ""⟩)) ∧
    (MediaUploadVideo ⟨.ok "TOK", .ok ⟨200, "200 OK",
        Json.obj [("media_id", Json.str "MID"), ("created_at", Json.num 9)]⟩⟩
      (some ⟨Json.obj [("title", Json.str "t")]⟩)).1 =
      (if (Error.mk 0 "").errCode = 0 then .ok ⟨"", "MID", 9⟩ else .error (.api ⟨0, ""⟩)) :=
  mediaUploadNewsVideo_nil_and_success
    ⟨.ok "TOK", .ok ⟨200, "200 OK",
      Json.obj [("media_id", Json.str "MID"), ("created_at", Json.num 9)]⟩⟩
    "TOK" ⟨Json.obj [("articles", Json.arr [])]⟩ ⟨Json.obj [("title", Json.str "t")]⟩
    ⟨200, "200 OK", Json.obj [("media_id", Json.str "MID"), ("created_at", Json.num 9)]⟩
    ⟨"", "MID", 9⟩ ⟨0, ""⟩ rfl rfl rfl rfl

/-- Counterexample for C1: `MerchantOrderGetById` with an empty order
id performs the token fetch and the HTTP POST (one network event each)
and returns the decoded order — not a precondition error before any
network call, contradicting the claim for identifier-accepting
operations. -/
theorem merchantOrderGetById_empty_id_counterexample :
    (MerchantOrderGetById ⟨.ok "TOK", .ok ⟨200, "200 OK",
        Json.obj [("errcode", Json.num 0), ("errmsg", Json.str ""),
          ("order", Json.obj [("order_id", Json.str "x")])]⟩⟩ "").2.countP
      Event.isNetwork = 1 ∧
    (MerchantOrderGetById ⟨.ok "TOK", .ok ⟨200, "200 OK",
        Json.obj [("errcode", Json.num 0), ("errmsg", Json.str ""),
          ("order", Json.obj [("order_id", Json.str "x")])]⟩⟩ "").2.countP
      Event.isTokenFetch = 1 ∧
    (MerchantOrderGetById ⟨.ok "TOK", .ok ⟨200, "200 OK",
        Json.obj [("errcode", Json.num 0), ("errmsg", Json.str ""),
          ("order", Json.obj [("order_id", Json.str "x")])]⟩⟩ "").1 =
      .ok ⟨Json.obj [("order_id", Json.str "x")]⟩ :=
  ⟨rfl, rfl, rfl⟩

/-- C1 as amended: for the media operations every precondition
violation (invalid media type, empty filename, nil reader; empty media
id, nil writer; nil news/video payload) returns the descriptive
precondition error with an empty trace — no token fetch and no network
call. The merchant order operations perform no such checks. -/
theorem media_ops_precondition_fast_fail
    (cu : UploadWorld) (cd : DownloadWorld) (cj : JsonOpWorld)
    (mt fn mid : String) (rd wr : Option (Except String Unit)) :
    (¬ (mt = MEDIA_TYPE_IMAGE ∨ mt = MEDIA_TYPE_VOICE ∨
        mt = MEDIA_TYPE_VIDEO ∨ mt = MEDIA_TYPE_THUMB) →
      MediaUpload cu mt fn rd = (.error (.msg "错误的 mediaType"), [])) ∧
    ((mt = MEDIA_TYPE_IMAGE ∨ mt = MEDIA_TYPE_VOICE ∨
        mt = MEDIA_TYPE_VIDEO ∨ mt = MEDIA_TYPE_THUMB) →
      MediaUpload cu mt "" rd = (.error (.msg "filename == \x22\x22"), [])) ∧
    ((mt = MEDIA_TYPE_IMAGE ∨ mt = MEDIA_TYPE_VOICE ∨
        mt = MEDIA_TYPE_VIDEO ∨ mt = MEDIA_TYPE_THUMB) → fn ≠ "" →
      MediaUpload cu mt fn none = (.error (.msg "mediaReader == nil"), [])) ∧
    MediaDownload cd "" wr = (.error (.msg "mediaId == \x22\x22"), []) ∧
    (mid ≠ "" →
      MediaDownload cd mid none = (.error (.msg "writer == nil"), [])) ∧
    MediaUploadNews cj none = (.error (.msg "news == nil"), []) ∧
    MediaUploadVideo cj none = (.error (.msg "video == nil"), []) := by
  refine ⟨?_, ?_, ?_, ?_, ?_, rfl, rfl⟩
  · intro h
    unfold MediaUpload
    rw [if_pos h]
  · intro h
    unfold MediaUpload
    rw [if_neg (not_not_intro h), if_pos rfl]
  · intro h hfn
    unfold MediaUpload
    rw [if_neg (not_not_intro h), if_neg hfn]
  · unfold MediaDownload
    rw [if_pos rfl]
  · intro hmid
    unfold MediaDownload
    rw [if_neg hmid]

/-- Witness for the amended C1: each precondition violation at a
concrete input fails fast with the matching message and empty trace. -/
theorem media_ops_precondition_fast_fail_witness :
    MediaUpload ⟨.ok "TOK", .ok (), .ok (), .error "unused"⟩ "gif" "f.jpg"
        (some (.ok ())) = (.error (.msg "错误的 mediaType"), []) ∧
    MediaUpload ⟨.ok "TOK", .ok (), .ok (), .error "unused"⟩ "image" ""
        (some (.ok ())) = (.error (.msg "filename == \x22\x22"), []) ∧
    MediaUpload ⟨.ok "TOK", .ok (), .ok (), .error "unused"⟩ "image" "f.jpg"
        none = (.error (.msg "mediaReader == nil"), []) ∧
    MediaDownload ⟨.ok "TOK", .error "unused"⟩ "" (some (.ok ())) =
      (.error (.msg "mediaId == \x22\x22"), []) ∧
    MediaDownload ⟨.ok "TOK", .error "unused"⟩ "m" none =
      (.error (.msg "writer == nil"), []) ∧
    MediaUploadNews ⟨.ok "TOK", .error "unused"⟩ none =
      (.error (.msg "news == nil"), []) ∧
    MediaUploadVideo ⟨.ok "TOK", .error "unused"⟩ none =
      (.error (.msg "video == nil"), []) := by
  refine ⟨?_, ?_, ?_, ?_, ?_, ?_, ?_⟩
  · exact (media_ops_precondition_fast_fail ⟨.ok "TOK", .ok (), .ok (), .error "unused"⟩
      ⟨.ok "TOK", .error "unused"⟩ ⟨.ok "TOK", .error "unused"⟩ "gif" "f.jpg" "m"
      (some (.ok ())) (some (.ok ()))).1 (by decide)
  · exact (media_ops_precondition_fast_fail ⟨.ok "TOK", .ok (), .ok (), .error "unused"⟩
      ⟨.ok "TOK", .error "unused"⟩ ⟨.ok "TOK", .error "unused"⟩ "image" "f.jpg" "m"
      (some (.ok ())) (some (.ok ()))).2.1 (Or.inl rfl)
  · exact (media_ops_precondition_fast_fail ⟨.ok "TOK", .ok (), .ok (), .error "unused"⟩
      ⟨.ok "TOK", .error "unused"⟩ ⟨.ok "TOK", .error "unused"⟩ "image" "f.jpg" "m"
      (some (.ok ())) (some (.ok ()))).2.2.1 (Or.inl rfl) (by decide)
  · exact (media_ops_precondition_fast_fail ⟨.ok "TOK", .ok (), .ok (), .error "unused"⟩
      ⟨.ok "TOK", .error "unused"⟩ ⟨.ok "TOK", .error "unused"⟩ "image" "f.jpg" "m"
      (some (.ok ())) (some (.ok ()))).2.2.2.1
  · exact (media_ops_precondition_fast_fail ⟨.ok "TOK", .ok (), .ok (), .error "unused"⟩
      ⟨.ok "TOK", .error "unused"⟩ ⟨.ok "TOK", .error "unused"⟩ "image" "f.jpg" "m"
      (some (.ok ())) (some (.ok ()))).2.2.2.2.1 (by decide)
  · exact (media_ops_precondition_fast_fail ⟨.ok "TOK", .ok (), .ok (), .error "unused"⟩
      ⟨.ok "TOK", .error "unused"⟩ ⟨.ok "TOK", .error "unused"⟩ "image" "f.jpg" "m"
      (some (.ok ())) (some (.ok ()))).2.2.2.2.2.1
  · exact (media_ops_precondition_fast_fail ⟨.ok "TOK", .ok (), .ok (), .error "unused"⟩
      ⟨.ok "TOK", .error "unused"⟩ ⟨.ok "TOK", .error "unused"⟩ "image" "f.jpg" "m"
      (some (.ok ())) (some (.ok ()))).2.2.2.2.2.2

end Wechat
